import Mathlib

/-!
Shallow embedding of the weather MCP adapter (src/index.ts, src/types.ts).

Numbers in tool arguments are modelled as integers (every claim concerns
integral day counts, and the arithmetic the code applies to them —
`Math.min`, `||`-falsiness at 0, multiplication by 8 — is exact on
integers); numbers inside weather payloads are modelled as rationals, since
the code only copies them.
The wall clock (`new Date()`) is passed in as an explicit `today`/`now` string
parameter.  The HTTP layer is modelled as an oracle function from request
parameters to a `ProviderResult`; the handlers are split into a first phase
that either fails with a protocol error or decides to issue a provider call
(making "no network call is issued" expressible) and the full handler that
consumes the oracle's answer.
-/

namespace WeatherServer

/-- Model of the JavaScript values a tool invocation's `arguments` may take. -/
inductive JSValue where
  | vUndefined : JSValue
  | vNull : JSValue
  | vBool : Bool → JSValue
  | vNum : Int → JSValue
  | vStr : String → JSValue
  | vObj : List (String × JSValue) → JSValue
  | vArr : List JSValue → JSValue

/-- JavaScript `typeof` (note `typeof null === "object"`). -/
def jsTypeof : JSValue → String
  | .vUndefined => "undefined"
  | .vNull => "object"
  | .vBool _ => "boolean"
  | .vNum _ => "number"
  | .vStr _ => "string"
  | .vObj _ => "object"
  | .vArr _ => "object"

/-- The `in` operator for the property names used here (non-index keys). -/
def JSValue.hasProp : JSValue → String → Bool
  | .vObj fields, key => fields.any (fun p => p.1 == key)
  | _, _ => false

/-- Property access `v.key`; `undefined` when absent or not an object. -/
def JSValue.getProp : JSValue → String → JSValue
  | .vObj fields, key => ((fields.find? (fun p => p.1 == key)).map Prod.snd).getD .vUndefined
  | _, _ => .vUndefined

def JSValue.isNull : JSValue → Bool
  | .vNull => true
  | _ => false

def JSValue.isUndef : JSValue → Bool
  | .vUndefined => true
  | _ => false

/-- `isValidForecastArgs` from src/types.ts:
`typeof args === "object" && args !== null && "city" in args &&
 typeof args.city === "string" && (args.days === undefined || typeof args.days === "number")`. -/
def isValidForecastArgs (args : JSValue) : Bool :=
  jsTypeof args == "object" &&
  !args.isNull &&
  args.hasProp "city" &&
  jsTypeof (args.getProp "city") == "string" &&
  ((args.getProp "days").isUndef || jsTypeof (args.getProp "days") == "number")

/-- `main` part of `OpenWeatherResponse` (src/types.ts). -/
structure MainInfo where
  temp : ℚ
  humidity : ℚ
  deriving DecidableEq

/-- One element of the `weather` array of `OpenWeatherResponse`. -/
structure WeatherCondition where
  description : String
  deriving DecidableEq

/-- `wind` part of `OpenWeatherResponse`. -/
structure WindInfo where
  speed : ℚ
  deriving DecidableEq

/-- `OpenWeatherResponse` from src/types.ts. -/
structure OpenWeatherResponse where
  main : MainInfo
  weather : List WeatherCondition
  wind : WindInfo
  dt_txt : Option String
  deriving DecidableEq

/-- `WeatherData` from src/types.ts (normalized current snapshot). -/
structure WeatherData where
  temperature : ℚ
  conditions : String
  humidity : ℚ
  wind_speed : ℚ
  timestamp : String
  deriving DecidableEq

/-- `ForecastDay` from src/types.ts (normalized per-day forecast entry). -/
structure ForecastDay where
  date : String
  temperature : ℚ
  conditions : String
  deriving DecidableEq

/-- JavaScript `s.split(' ')[0]`: the portion of `s` before the first space
(`s` itself when it has no space). -/
def dateBeforeSpace (s : String) : String :=
  String.mk (s.data.takeWhile (fun c => c != ' '))

/-- `dayData.dt_txt?.split(' ')[0] ?? today` (src/index.ts line 212), where
`today` stands for `new Date().toISOString().split('T')[0]`. -/
def forecastDate (today : String) : Option String → String
  | some s => dateBeforeSpace s
  | none => today

/-- The body of the forecast loop for one sampled entry: `weather[0]` access
throws a TypeError on an empty list, modelled as `none`. -/
def toForecastDay (today : String) (e : OpenWeatherResponse) : Option ForecastDay :=
  match e.weather.head? with
  | some w => some { date := forecastDate today e.dt_txt,
                     temperature := e.main.temp,
                     conditions := w.description }
  | none => none

/-- Walks the list with a countdown to the next sampled index: `skip` is the
number of elements still to pass over before the next one is taken. -/
def sampleAux {α : Type} : Nat → List α → List α
  | _, [] => []
  | 0, e :: rest => e :: sampleAux 7 rest
  | k + 1, _ :: rest => sampleAux k rest

/-- The index pattern of the loop `for (let i = 0; i < list.length; i += 8)`:
the elements at indices 0, 8, 16, …. -/
def sampleEvery8 {α : Type} (l : List α) : List α :=
  sampleAux 0 l

/-- Builds one `ForecastDay` per given entry, failing as soon as one entry has
an empty `weather` list (the loop throws there). -/
def buildForecasts (today : String) : List OpenWeatherResponse → Option (List ForecastDay)
  | [] => some []
  | e :: rest =>
    match toForecastDay today e, buildForecasts today rest with
    | some d, some ds => some (d :: ds)
    | _, _ => none

/-- The whole forecast loop (src/index.ts lines 208–216). -/
def toForecastDays (today : String) (l : List OpenWeatherResponse) :
    Option (List ForecastDay) :=
  buildForecasts today (sampleEvery8 l)

/-- The `weatherData` construction of the read-resource handler
(src/index.ts lines 122–128); `now` stands for `new Date().toISOString()`. -/
def toSnapshot (now : String) (raw : OpenWeatherResponse) : Option WeatherData :=
  match raw.weather.head? with
  | some w => some { temperature := raw.main.temp,
                     conditions := w.description,
                     humidity := raw.main.humidity,
                     wind_speed := raw.wind.speed,
                     timestamp := now }
  | none => none

/-- `API_CONFIG.DEFAULT_CITY`. -/
def DEFAULT_CITY : String := "San Francisco"

/-- The one resource URI, `weather://${DEFAULT_CITY}/current`. -/
def advertisedUri : String := "weather://" ++ DEFAULT_CITY ++ "/current"

/-- A resource descriptor as returned by the list-resources handler. -/
structure ResourceDescriptor where
  uri : String
  name : String
  mimeType : String
  description : String
  deriving DecidableEq

/-- The list-resources handler (src/index.ts lines 91–101). -/
def listResources : List ResourceDescriptor :=
  [{ uri := advertisedUri,
     name := "Current weather in " ++ DEFAULT_CITY,
     mimeType := "application/json",
     description := "Real-time weather data including temperature, conditions, humidity, and wind speed" }]

/-- MCP error codes used by the handlers. -/
inductive McpErrorCode where
  | invalidRequest | methodNotFound | invalidParams | internalError
  deriving DecidableEq

/-- The parts of an axios error the catch blocks look at:
`error.response?.data.message` (when the provider sent a structured body with
a message) and `error.message` (the transport error message). -/
structure AxiosErrorInfo where
  responseDataMessage : Option String
  message : String
  deriving DecidableEq

/-- Outcome of one provider HTTP call: decoded data, an axios error, or a
non-axios exception (which the handlers rethrow). -/
inductive ProviderResult (α : Type) where
  | ok : α → ProviderResult α
  | axiosErr : AxiosErrorInfo → ProviderResult α
  | otherErr : ProviderResult α

/-- `` `Weather API error: ${error.response?.data.message ?? error.message}` ``. -/
def apiErrorText (e : AxiosErrorInfo) : String :=
  "Weather API error: " ++ (e.responseDataMessage.getD e.message)

/-- First phase of the call-tool handler: either a protocol error is thrown
before any network activity, or a provider forecast call is issued with the
given city and `cnt` query parameter. -/
inductive ToolAction where
  | mcpError : McpErrorCode → String → ToolAction
  | providerCall : String → Int → ToolAction
  deriving DecidableEq

/-- `request.params.arguments.days || 3`: the days value when it is a nonzero
number, else the default 3.  (After validation the `days` property is either
a number or `undefined`, and `undefined` is falsy.) -/
def daysOrDefault : JSValue → Int
  | .vNum x => if x = 0 then 3 else x
  | _ => 3

/-- `Math.min` on two (non-NaN) numbers. -/
def mathMin (a b : Int) : Int := if a ≤ b then a else b

/-- `const days = Math.min(request.params.arguments.days || 3, 5)`
(src/index.ts line 196). -/
def effectiveDays (args : JSValue) : Int :=
  mathMin (daysOrDefault (args.getProp "days")) 5

/-- `request.params.arguments.city`; validation guarantees a string. -/
def cityOf (args : JSValue) : String :=
  match args.getProp "city" with
  | .vStr s => s
  | _ => ""

/-- The call-tool handler up to the point of the provider call
(src/index.ts lines 180–206): tool-name check, argument validation, then a
forecast request with `cnt = days * 8`. -/
def callToolAction (name : String) (args : JSValue) : ToolAction :=
  if name = "get_forecast" then
    if isValidForecastArgs args then
      .providerCall (cityOf args) (effectiveDays args * 8)
    else
      .mcpError .invalidParams "Invalid forecast arguments"
  else
    .mcpError .methodNotFound ("Unknown tool: " ++ name)

/-- Payload of a successful call-tool protocol response: the serialized
forecast list, or an error message text. -/
inductive ToolPayload where
  | forecasts : List ForecastDay → ToolPayload
  | message : String → ToolPayload
  deriving DecidableEq

/-- Result of the call-tool handler: a protocol-level McpError thrown to the
framework, a successful protocol response (payload plus `isError` flag), or a
non-axios exception rethrown. -/
inductive ToolResult where
  | protocolError : McpErrorCode → String → ToolResult
  | response : ToolPayload → Bool → ToolResult
  | rethrown : ToolResult
  deriving DecidableEq

/-- The full call-tool handler (src/index.ts lines 178–237), with the provider
modelled as an oracle from (city, cnt) to the HTTP outcome. -/
def callTool (today : String) (name : String) (args : JSValue)
    (provider : String → Int → ProviderResult (List OpenWeatherResponse)) : ToolResult :=
  match callToolAction name args with
  | .mcpError c m => .protocolError c m
  | .providerCall city cnt =>
    match provider city cnt with
    | .ok l =>
      match toForecastDays today l with
      | some fs => .response (.forecasts fs) false
      | none => .rethrown
    | .axiosErr e => .response (.message (apiErrorText e)) true
    | .otherErr => .rethrown

/-- First phase of the read-resource handler: protocol error or a
current-weather provider call for the default city. -/
inductive ResourceAction where
  | mcpError : McpErrorCode → String → ResourceAction
  | providerCall : String → ResourceAction
  deriving DecidableEq

/-- The read-resource handler up to the provider call
(src/index.ts lines 105–112). -/
def readResourceAction (uri : String) : ResourceAction :=
  if uri = advertisedUri then .providerCall DEFAULT_CITY
  else .mcpError .invalidRequest ("Unknown resource: " ++ uri)

/-- Result of the read-resource handler: a protocol-level McpError, the
contents payload (uri tag plus the snapshot serialized as JSON text), or a
non-axios exception rethrown. -/
inductive ResourceResult where
  | protocolError : McpErrorCode → String → ResourceResult
  | contents : String → WeatherData → ResourceResult
  | rethrown : ResourceResult
  deriving DecidableEq

/-- The full read-resource handler (src/index.ts lines 103–147), with the
provider modelled as an oracle from the city to the HTTP outcome. -/
def readResource (now : String) (uri : String)
    (provider : String → ProviderResult OpenWeatherResponse) : ResourceResult :=
  match readResourceAction uri with
  | .mcpError c m => .protocolError c m
  | .providerCall city =>
    match provider city with
    | .ok raw =>
      match toSnapshot now raw with
      | some wd => .contents uri wd
      | none => .rethrown
    | .axiosErr e => .protocolError .internalError (apiErrorText e)
    | .otherErr => .rethrown

/-- The argument shape stated by the specification for the validator: a
non-null structured value containing a string-valued `city` field, with
`days` absent or numeric. -/
def ShapeSpec (v : JSValue) : Prop :=
  jsTypeof v = "object" ∧ v ≠ .vNull ∧
  v.hasProp "city" = true ∧ (∃ s, v.getProp "city" = .vStr s) ∧
  (v.getProp "days" = .vUndefined ∨ ∃ x, v.getProp "days" = .vNum x)

/-! Concrete inputs used by witnesses and counterexamples. -/

/-- A forecast entry dated 2025-01-01, used as concrete input. -/
def sampleEntry : OpenWeatherResponse :=
  { main := { temp := 20, humidity := 50 },
    weather := [{ description := "clear sky" }],
    wind := { speed := 3 },
    dt_txt := some "2025-01-01 00:00:00" }

/-- A forecast entry dated 2025-01-02, used as concrete input. -/
def sampleEntry2 : OpenWeatherResponse :=
  { main := { temp := 18, humidity := 55 },
    weather := [{ description := "light rain" }],
    wind := { speed := 4 },
    dt_txt := some "2025-01-02 00:00:00" }

/-- The current-weather payload of the specification's simulated test. -/
def sampleCurrent : OpenWeatherResponse :=
  { main := { temp := 21.5, humidity := 60 },
    weather := [{ description := "clear sky" }],
    wind := { speed := 3.1 },
    dt_txt := none }

/-- Valid arguments with `days` equal to `-1`. -/
def argsDaysNeg : JSValue := .vObj [("city", .vStr "Paris"), ("days", .vNum (-1))]

/-- Valid arguments with `days` equal to `0`. -/
def argsDaysZero : JSValue := .vObj [("city", .vStr "Paris"), ("days", .vNum 0)]

/-- Valid arguments with `days` equal to `0` and another city. -/
def argsDaysZero2 : JSValue := .vObj [("city", .vStr "Tokyo"), ("days", .vNum 0)]

/-- Valid arguments with an empty `city` string. -/
def argsEmptyCity : JSValue := .vObj [("city", .vStr "")]

/-- Valid arguments without a `days` field. -/
def argsParis : JSValue := .vObj [("city", .vStr "Paris")]

/-- Valid arguments with `days` equal to `2`. -/
def argsParis2 : JSValue := .vObj [("city", .vStr "Paris"), ("days", .vNum 2)]

/-- A 16-entry (two-stride) forecast list whose two sampled entries carry the
same `dt_txt`. -/
def dupList : List OpenWeatherResponse := List.replicate 16 sampleEntry

/-- A 9-entry forecast list whose two sampled entries carry distinct dates. -/
def twoDayList : List OpenWeatherResponse :=
  sampleEntry :: (List.replicate 7 sampleEntry ++ [sampleEntry2])

/-- An axios error carrying a structured provider message. -/
def sampleAxiosError : AxiosErrorInfo :=
  { responseDataMessage := some "city not found",
    message := "Request failed with status code 404" }

/-- An 8-entry (one-stride) forecast list. -/
def eightEntries : List OpenWeatherResponse := List.replicate 8 sampleEntry

/-- The normalization of `eightEntries`. -/
def oneForecast : List ForecastDay :=
  [{ date := "2025-01-01", temperature := 20, conditions := "clear sky" }]

/-- The normalization of `dupList`: two entries with the same date. -/
def dupForecasts : List ForecastDay :=
  [{ date := "2025-01-01", temperature := 20, conditions := "clear sky" },
   { date := "2025-01-01", temperature := 20, conditions := "clear sky" }]

/-- The normalization of `twoDayList`: two entries with distinct dates. -/
def twoDayForecasts : List ForecastDay :=
  [{ date := "2025-01-01", temperature := 20, conditions := "clear sky" },
   { date := "2025-01-02", temperature := 18, conditions := "light rain" }]

/-! Helper lemmas about the sampling pattern and the forecast builder. -/

theorem sampleAux_length {α : Type} :
    ∀ (k : Nat) (l : List α), (sampleAux k l).length = (l.length - k + 7) / 8
  | _, [] => by simp [sampleAux]
  | 0, e :: rest => by
    have ih := sampleAux_length 7 rest
    simp only [sampleAux, List.length_cons, ih]
    omega
  | k + 1, e :: rest => by
    have ih := sampleAux_length k rest
    simp only [sampleAux, List.length_cons, ih]
    omega

theorem sampleEvery8_length {α : Type} (l : List α) :
    (sampleEvery8 l).length = (l.length + 7) / 8 := by
  have h := sampleAux_length 0 l
  simpa [sampleEvery8] using h

theorem sampleAux_getElem? {α : Type} :
    ∀ (k : Nat) (l : List α) (j : Nat), (sampleAux k l)[j]? = l[k + 8 * j]?
  | _, [], _ => by simp [sampleAux]
  | 0, e :: rest, 0 => by simp [sampleAux]
  | 0, e :: rest, j + 1 => by
    have ih := sampleAux_getElem? 7 rest j
    have h8 : 0 + 8 * (j + 1) = (7 + 8 * j) + 1 := by omega
    simp only [sampleAux, List.getElem?_cons_succ, ih, h8]
  | k + 1, e :: rest, j => by
    have ih := sampleAux_getElem? k rest j
    have hk : (k + 1) + 8 * j = (k + 8 * j) + 1 := by omega
    simp only [sampleAux, ih, hk, List.getElem?_cons_succ]

theorem sampleEvery8_getElem? {α : Type} (l : List α) (j : Nat) :
    (sampleEvery8 l)[j]? = l[8 * j]? := by
  have h := sampleAux_getElem? 0 l j
  simpa [sampleEvery8] using h

theorem toForecastDay_date (today : String) (e : OpenWeatherResponse) (d : ForecastDay)
    (h : toForecastDay today e = some d) : d.date = forecastDate today e.dt_txt := by
  unfold toForecastDay at h
  cases hw : e.weather.head? with
  | none => rw [hw] at h; exact absurd h (by simp)
  | some w => rw [hw] at h; cases h; rfl

theorem buildForecasts_length (today : String) :
    ∀ (l : List OpenWeatherResponse) (fs : List ForecastDay),
      buildForecasts today l = some fs → fs.length = l.length := by
  intro l
  induction l with
  | nil => intro fs h; simp only [buildForecasts, Option.some_inj] at h; simp [← h]
  | cons e rest ih =>
    intro fs h
    simp only [buildForecasts] at h
    cases hd : toForecastDay today e with
    | none => rw [hd] at h; simp at h
    | some d =>
      cases hr : buildForecasts today rest with
      | none => rw [hd, hr] at h; simp at h
      | some ds =>
        rw [hd, hr] at h
        simp only [Option.some_inj] at h
        have hlen := ih ds hr
        simp [← h, hlen]

theorem buildForecasts_getElem? (today : String) :
    ∀ (l : List OpenWeatherResponse) (fs : List ForecastDay),
      buildForecasts today l = some fs →
      ∀ (j : Nat) (e : OpenWeatherResponse), l[j]? = some e →
        fs[j]? = toForecastDay today e := by
  intro l
  induction l with
  | nil => intro fs _ j e he; simp at he
  | cons e0 rest ih =>
    intro fs h j e he
    simp only [buildForecasts] at h
    cases hd : toForecastDay today e0 with
    | none => rw [hd] at h; simp at h
    | some d =>
      cases hr : buildForecasts today rest with
      | none => rw [hd, hr] at h; simp at h
      | some ds =>
        rw [hd, hr] at h
        simp only [Option.some_inj] at h
        subst h
        cases j with
        | zero =>
          simp only [List.getElem?_cons_zero, Option.some_inj] at he
          subst he
          simpa using hd.symm
        | succ j =>
          simp only [List.getElem?_cons_succ] at he ⊢
          exact ih ds hr j e he

theorem buildForecasts_map_date (today : String) :
    ∀ (l : List OpenWeatherResponse) (fs : List ForecastDay),
      buildForecasts today l = some fs →
      fs.map ForecastDay.date = l.map (fun e => forecastDate today e.dt_txt) := by
  intro l
  induction l with
  | nil => intro fs h; simp only [buildForecasts, Option.some_inj] at h; simp [← h]
  | cons e rest ih =>
    intro fs h
    simp only [buildForecasts] at h
    cases hd : toForecastDay today e with
    | none => rw [hd] at h; simp at h
    | some d =>
      cases hr : buildForecasts today rest with
      | none => rw [hd, hr] at h; simp at h
      | some ds =>
        rw [hd, hr] at h
        simp only [Option.some_inj] at h
        subst h
        simp only [List.map_cons]
        rw [toForecastDay_date today e d hd, ih ds hr]

theorem isNull_eq_false_iff (v : JSValue) : v.isNull = false ↔ v ≠ .vNull := by
  cases v <;> simp [JSValue.isNull]

theorem jsTypeof_eq_string_iff (v : JSValue) :
    jsTypeof v = "string" ↔ ∃ s, v = .vStr s := by
  cases v <;> simp [jsTypeof]

theorem jsTypeof_eq_number_iff (v : JSValue) :
    jsTypeof v = "number" ↔ ∃ x, v = .vNum x := by
  cases v <;> simp [jsTypeof]

theorem isUndef_eq_true_iff (v : JSValue) : v.isUndef = true ↔ v = .vUndefined := by
  cases v <;> simp [JSValue.isUndef]

theorem isValid_iff_shape (v : JSValue) : isValidForecastArgs v = true ↔ ShapeSpec v := by
  unfold isValidForecastArgs ShapeSpec
  simp only [Bool.and_eq_true, Bool.or_eq_true, Bool.not_eq_true', beq_iff_eq,
    isNull_eq_false_iff, jsTypeof_eq_string_iff, jsTypeof_eq_number_iff, isUndef_eq_true_iff,
    and_assoc]

/-! Claim theorems. -/

/-- C1: for a provider forecast response whose list has `8 * d` entries
(`d` in `[1,5]`), a successful `call-tool("get_forecast")` returns exactly
`d` forecast entries, the `k`-th derived from the list entry at index
`8 * k`, with temperature `main.temp`, conditions `weather[0].description`,
and date the portion of `dt_txt` before the first space when present, else
today's date. -/
theorem c1_forecast_stride (today : String) (args : JSValue)
    (hargs : isValidForecastArgs args = true)
    (d : Nat) (hd1 : 1 ≤ d) (hd5 : d ≤ 5)
    (l : List OpenWeatherResponse) (hlen : l.length = 8 * d)
    (fs : List ForecastDay) (hfs : toForecastDays today l = some fs) :
    callTool today "get_forecast" args (fun _ _ => .ok l) =
      .response (.forecasts fs) false ∧
    fs.length = d ∧
    ∀ k : Nat, k < d → ∀ e : OpenWeatherResponse, l[8 * k]? = some e →
      ∀ w : WeatherCondition, e.weather.head? = some w →
        fs[k]? = some { date := forecastDate today e.dt_txt,
                        temperature := e.main.temp,
                        conditions := w.description } := by
  refine ⟨by simp [callTool, callToolAction, hargs, hfs], ?_, ?_⟩
  · have h1 := buildForecasts_length today (sampleEvery8 l) fs
      (by simpa [toForecastDays] using hfs)
    rw [sampleEvery8_length, hlen] at h1
    omega
  · intro k hk e he w hw
    have hs : (sampleEvery8 l)[k]? = some e := by
      rw [sampleEvery8_getElem?]; exact he
    have h2 := buildForecasts_getElem? today (sampleEvery8 l) fs
      (by simpa [toForecastDays] using hfs) k e hs
    rw [h2]
    simp [toForecastDay, hw]

/-- C1 witness: an 8-entry list yields exactly one entry, derived from index 0. -/
theorem c1_forecast_stride_witness :
    callTool "2025-06-02" "get_forecast" argsParis (fun _ _ => .ok eightEntries) =
      .response (.forecasts oneForecast) false ∧
    oneForecast.length = 1 ∧
    oneForecast[0]? = some { date := forecastDate "2025-06-02" sampleEntry.dt_txt,
                             temperature := sampleEntry.main.temp,
                             conditions := "clear sky" } := by
  have h := c1_forecast_stride "2025-06-02" argsParis (by decide) 1 (by decide) (by decide)
    eightEntries (by decide) oneForecast (by decide)
  exact ⟨h.1, h.2.1,
    h.2.2 0 (by decide) sampleEntry (by decide) { description := "clear sky" } rfl⟩

/-- C2: on an axios-layer provider failure, the read-resource handler throws
a protocol-level internal error whose text carries the provider's structured
message when available, else the transport message, while the call-tool
handler returns a successful protocol response flagged `isError` with the
same text. -/
theorem c2_provider_error_paths (e : AxiosErrorInfo)
    (now uri : String) (huri : uri = advertisedUri)
    (args : JSValue) (hargs : isValidForecastArgs args = true) (today : String) :
    readResource now uri (fun _ => .axiosErr e) =
      .protocolError .internalError (apiErrorText e) ∧
    callTool today "get_forecast" args (fun _ _ => .axiosErr e) =
      .response (.message (apiErrorText e)) true ∧
    (∀ m, e.responseDataMessage = some m →
      apiErrorText e = "Weather API error: " ++ m) ∧
    (e.responseDataMessage = none →
      apiErrorText e = "Weather API error: " ++ e.message) := by
  subst huri
  refine ⟨by simp [readResource, readResourceAction], ?_, ?_, ?_⟩
  · simp [callTool, callToolAction, hargs]
  · intro m hm; simp [apiErrorText, hm]
  · intro h0; simp [apiErrorText, h0]

/-- C2 witness: a 404 with body message "city not found" surfaces that text in
both paths. -/
theorem c2_provider_error_paths_witness :
    readResource "2025-06-01T12:00:00.000Z" advertisedUri
        (fun _ => .axiosErr sampleAxiosError) =
      .protocolError .internalError (apiErrorText sampleAxiosError) ∧
    callTool "2025-06-01" "get_forecast" argsParis
        (fun _ _ => .axiosErr sampleAxiosError) =
      .response (.message (apiErrorText sampleAxiosError)) true ∧
    apiErrorText sampleAxiosError = "Weather API error: city not found" := by
  have h := c2_provider_error_paths sampleAxiosError "2025-06-01T12:00:00.000Z"
    advertisedUri rfl argsParis (by decide) "2025-06-01"
  exact ⟨h.1, h.2.1, h.2.2.1 "city not found" rfl⟩

/-- C3 counterexample: with `days = -1` the day count used for the provider
call is `-1`, not the `[1,5]`-clamped value `1`: the claim's clamping to the
interval `[1,5]` does not hold below 1. -/
theorem c3_clamp_cex :
    isValidForecastArgs argsDaysNeg = true ∧
    effectiveDays argsDaysNeg = -1 ∧
    ¬ (1 ≤ effectiveDays argsDaysNeg) ∧
    callToolAction "get_forecast" argsDaysNeg = .providerCall "Paris" (-8) := by decide

/-- C3 amended: the day count is `min(days, 5)` when `days` is present and
nonzero, and `3` when `days` is absent or `0` (both falsy); values below 1
are not re-clamped upward. -/
theorem c3_days_amended (args : JSValue) (hargs : isValidForecastArgs args = true) :
    (∀ x : Int, args.getProp "days" = .vNum x → x ≠ 0 →
      effectiveDays args = mathMin x 5) ∧
    (args.getProp "days" = .vUndefined → effectiveDays args = 3) ∧
    (args.getProp "days" = .vNum 0 → effectiveDays args = 3) ∧
    callToolAction "get_forecast" args =
      .providerCall (cityOf args) (effectiveDays args * 8) := by
  refine ⟨?_, ?_, ?_, ?_⟩
  · intro x hx hx0
    simp [effectiveDays, daysOrDefault, hx, hx0]
  · intro h
    simp [effectiveDays, daysOrDefault, h, mathMin]
  · intro h
    simp [effectiveDays, daysOrDefault, h, mathMin]
  · simp [callToolAction, hargs]

/-- C3 witness: with `days = 2` the day count is `min(2, 5)` and the provider
call is issued with `cnt = days * 8`. -/
theorem c3_days_amended_witness :
    effectiveDays argsParis2 = mathMin 2 5 ∧
    callToolAction "get_forecast" argsParis2 =
      .providerCall (cityOf argsParis2) (effectiveDays argsParis2 * 8) := by
  have h := c3_days_amended argsParis2 (by decide)
  exact ⟨h.1 2 rfl (by decide), h.2.2.2⟩

/-- C4: arguments that are not a non-null structured value with a
string-valued `city` and `days` absent or numeric fail with invalid-params
before any provider call (for every provider oracle); conforming arguments
pass the gate and the provider call proceeds. -/
theorem c4_validation_gate (args : JSValue) :
    (¬ ShapeSpec args →
      callToolAction "get_forecast" args =
        .mcpError .invalidParams "Invalid forecast arguments" ∧
      ∀ (today : String) provider,
        callTool today "get_forecast" args provider =
          .protocolError .invalidParams "Invalid forecast arguments") ∧
    (ShapeSpec args →
      ∃ cnt, callToolAction "get_forecast" args =
        .providerCall (cityOf args) cnt) := by
  constructor
  · intro h
    cases hb : isValidForecastArgs args with
    | false =>
      constructor
      · simp [callToolAction, hb]
      · intro today provider; simp [callTool, callToolAction, hb]
    | true => exact absurd ((isValid_iff_shape args).mp hb) h
  · intro h
    have hv : isValidForecastArgs args = true := (isValid_iff_shape args).mpr h
    exact ⟨effectiveDays args * 8, by simp [callToolAction, hv]⟩

/-- C4 witness: a numeric `city` is rejected with no provider call; a string
`city` with `days` absent passes the gate. -/
theorem c4_validation_gate_witness :
    callTool "2025-06-01" "get_forecast" (.vObj [("city", .vNum 7)]) (fun _ _ => .otherErr) =
      .protocolError .invalidParams "Invalid forecast arguments" ∧
    ∃ cnt, callToolAction "get_forecast" argsParis = .providerCall (cityOf argsParis) cnt := by
  constructor
  · refine ((c4_validation_gate _).1 ?_).2 "2025-06-01" (fun _ _ => .otherErr)
    rintro ⟨-, -, -, ⟨s, hs⟩, -⟩
    have hg : (JSValue.vObj [("city", .vNum 7)]).getProp "city" = .vNum 7 := rfl
    rw [hg] at hs
    exact JSValue.noConfusion hs
  · refine (c4_validation_gate argsParis).2 ⟨rfl, ?_, rfl, ⟨"Paris", rfl⟩, Or.inl rfl⟩
    intro h
    exact JSValue.noConfusion h

/-- C5: every uri other than the single advertised
`weather://San Francisco/current` fails with an invalid-request
"Unknown resource" error, with no provider call for any provider oracle. -/
theorem c5_unknown_resource (uri : String)
    (h : ∀ r ∈ listResources, uri ≠ r.uri) :
    readResourceAction uri = .mcpError .invalidRequest ("Unknown resource: " ++ uri) ∧
    ∀ (now : String) provider,
      readResource now uri provider =
        .protocolError .invalidRequest ("Unknown resource: " ++ uri) := by
  have hmem : ({ uri := advertisedUri,
                 name := "Current weather in " ++ DEFAULT_CITY,
                 mimeType := "application/json",
                 description := "Real-time weather data including temperature, conditions, humidity, and wind speed" } :
      ResourceDescriptor) ∈ listResources := by simp [listResources]
  have huri : uri ≠ advertisedUri := h _ hmem
  constructor
  · simp [readResourceAction, huri]
  · intro now provider
    simp [readResource, readResourceAction, huri]

/-- C5 witness: reading `weather://Paris/current` fails with invalid-request. -/
theorem c5_unknown_resource_witness :
    readResourceAction "weather://Paris/current" =
      .mcpError .invalidRequest ("Unknown resource: " ++ "weather://Paris/current") ∧
    ∀ (now : String) provider,
      readResource now "weather://Paris/current" provider =
        .protocolError .invalidRequest ("Unknown resource: " ++ "weather://Paris/current") := by
  refine c5_unknown_resource _ ?_
  intro r hr
  simp only [listResources, List.mem_singleton] at hr
  subst hr
  simp [advertisedUri, DEFAULT_CITY]

/-- C6 counterexample: a successful `call-tool("get_forecast")` response whose
two entries carry the same date — the code does not enforce per-request date
distinctness when the provider repeats `dt_txt` across strides. -/
theorem c6_distinct_dates_cex :
    callTool "2025-06-01" "get_forecast" argsParis2 (fun _ _ => .ok dupList) =
      .response (.forecasts dupForecasts) false ∧
    dupForecasts.length = 2 ∧
    ¬ (dupForecasts.map ForecastDay.date).Nodup := by decide

/-- C6 amended: within a successful response the entry dates are pairwise
distinct provided the dates derived from the sampled stride-head entries
(`dt_txt` portion before the first space, else today's date) are pairwise
distinct; the code itself does not enforce distinctness. -/
theorem c6_distinct_dates_amended (today : String) (l : List OpenWeatherResponse)
    (fs : List ForecastDay) (hfs : toForecastDays today l = some fs)
    (hnd : ((sampleEvery8 l).map (fun e => forecastDate today e.dt_txt)).Nodup) :
    (fs.map ForecastDay.date).Nodup := by
  rw [buildForecasts_map_date today (sampleEvery8 l) fs
    (by simpa [toForecastDays] using hfs)]
  exact hnd

/-- C6 witness: a 9-entry list whose two sampled entries carry distinct dates
normalizes to entries with pairwise distinct dates. -/
theorem c6_distinct_dates_amended_witness :
    (twoDayForecasts.map ForecastDay.date).Nodup :=
  c6_distinct_dates_amended "2025-06-01" twoDayList twoDayForecasts (by decide) (by decide)

/-- C7: on a provider current-weather response with non-empty weather list,
read-resource returns the snapshot with temperature `main.temp`, conditions
`weather[0].description`, humidity `main.humidity`, wind speed `wind.speed`,
and the wall-clock timestamp at normalization, not a payload field. -/
theorem c7_snapshot_fields (now uri : String) (huri : uri = advertisedUri)
    (raw : OpenWeatherResponse) (w : WeatherCondition) (ws : List WeatherCondition)
    (hw : raw.weather = w :: ws) :
    readResource now uri (fun _ => .ok raw) =
      .contents uri { temperature := raw.main.temp,
                      conditions := w.description,
                      humidity := raw.main.humidity,
                      wind_speed := raw.wind.speed,
                      timestamp := now } := by
  subst huri
  simp [readResource, readResourceAction, toSnapshot, hw]

/-- C7 witness: the specification's simulated payload normalizes to
temperature 21.5, conditions "clear sky", humidity 60, wind speed 3.1, and
the present-time timestamp. -/
theorem c7_snapshot_fields_witness :
    readResource "2025-06-01T12:00:00.000Z" advertisedUri (fun _ => .ok sampleCurrent) =
      .contents advertisedUri { temperature := 21.5,
                                conditions := "clear sky",
                                humidity := 60,
                                wind_speed := 3.1,
                                timestamp := "2025-06-01T12:00:00.000Z" } :=
  c7_snapshot_fields "2025-06-01T12:00:00.000Z" advertisedUri rfl
    sampleCurrent { description := "clear sky" } [] rfl

/-- C8 counterexample: the validator accepts `city = ""` and the provider call
proceeds with the empty city, against the claim that the empty string is
rejected with invalid-params. -/
theorem c8_empty_city_cex :
    isValidForecastArgs argsEmptyCity = true ∧
    callToolAction "get_forecast" argsEmptyCity = .providerCall "" 24 := by decide

/-- C8 amended: every accepted arguments value has a `city` field whose value
is a string, possibly empty; in particular `city = ""` passes validation and
the provider call proceeds with the empty city. -/
theorem c8_city_string_amended (args : JSValue)
    (hargs : isValidForecastArgs args = true) :
    ∃ s : String, args.getProp "city" = .vStr s ∧
      callToolAction "get_forecast" args =
        .providerCall s (effectiveDays args * 8) := by
  obtain ⟨-, -, -, ⟨s, hs⟩, -⟩ := (isValid_iff_shape args).mp hargs
  refine ⟨s, hs, ?_⟩
  have hc : cityOf args = s := by simp [cityOf, hs]
  simp [callToolAction, hargs, hc]

/-- C8 witness: the empty-city arguments are accepted and the provider call
proceeds. -/
theorem c8_city_string_amended_witness :
    ∃ s : String, argsEmptyCity.getProp "city" = .vStr s ∧
      callToolAction "get_forecast" argsEmptyCity =
        .providerCall s (effectiveDays argsEmptyCity * 8) :=
  c8_city_string_amended argsEmptyCity (by decide)

/-- C9 counterexample: with `days = 0` the provider forecast request is issued
with `cnt = 24`, not `cnt = 0`: `0` is falsy, so the default of 3 days
applies. -/
theorem c9_zero_days_cex :
    isValidForecastArgs argsDaysZero = true ∧
    callToolAction "get_forecast" argsDaysZero = .providerCall "Paris" 24 ∧
    (24 : Int) ≠ 0 := by decide

/-- C9 amended: for a validated request with `days = 0`, the falsy value falls
through to the default 3, so the provider request is issued with `cnt = 24`;
only negative values pass through without upward re-clamping. -/
theorem c9_zero_days_amended (args : JSValue)
    (hargs : isValidForecastArgs args = true)
    (h0 : args.getProp "days" = .vNum 0) :
    effectiveDays args = 3 ∧
    callToolAction "get_forecast" args = .providerCall (cityOf args) 24 := by
  have he : effectiveDays args = 3 := by
    simp [effectiveDays, daysOrDefault, h0, mathMin]
  refine ⟨he, ?_⟩
  have h24 : effectiveDays args * 8 = 24 := by rw [he]; decide
  rw [show ToolAction.providerCall (cityOf args) 24 =
    ToolAction.providerCall (cityOf args) (effectiveDays args * 8) by rw [h24]]
  simp [callToolAction, hargs]

/-- C9 witness: `days = 0` with city "Tokyo" issues a provider call with
`cnt = 24`. -/
theorem c9_zero_days_amended_witness :
    effectiveDays argsDaysZero2 = 3 ∧
    callToolAction "get_forecast" argsDaysZero2 =
      .providerCall (cityOf argsDaysZero2) 24 :=
  c9_zero_days_amended argsDaysZero2 (by decide) rfl

/-- C10: the number of returned forecast entries equals `ceil(n / 8)` where
`n` is the length of the provider's returned list, independently of the
requested day count. -/
theorem c10_count_from_length (today : String) (args : JSValue)
    (hargs : isValidForecastArgs args = true)
    (l : List OpenWeatherResponse) (fs : List ForecastDay)
    (hfs : toForecastDays today l = some fs) :
    callTool today "get_forecast" args (fun _ _ => .ok l) =
      .response (.forecasts fs) false ∧
    fs.length = (l.length + 7) / 8 := by
  constructor
  · simp [callTool, callToolAction, hargs, hfs]
  · have h1 := buildForecasts_length today (sampleEvery8 l) fs
      (by simpa [toForecastDays] using hfs)
    rw [sampleEvery8_length] at h1
    exact h1

/-- C10 witness: a 9-entry provider list yields `ceil(9 / 8) = 2` entries even
though no 2-day request produced it. -/
theorem c10_count_from_length_witness :
    callTool "2025-06-01" "get_forecast" argsParis (fun _ _ => .ok twoDayList) =
      .response (.forecasts twoDayForecasts) false ∧
    twoDayForecasts.length = (twoDayList.length + 7) / 8 :=
  c10_count_from_length "2025-06-01" argsParis (by decide) twoDayList twoDayForecasts
    (by decide)

end WeatherServer
